import Mathlib

/-!
Shallow embedding of `src/backend/app.py` (a FastAPI retrieval-augmented
question-answering backend).  External library effects (PDF parsing,
embedding model, FAISS index, LLM call) are modelled by explicit outcome
oracles; the filesystem state at the fixed index path is modelled by `FS`.
-/

/-- Result of trying to read one uploaded byte buffer with `PyPDF2.PdfReader`
(app.py lines 44-52).  `openFail`: the `PdfReader` constructor raises.
`pages ps`: the reader opens and yields exactly the pages `ps`, where each
entry is the string `page.extract_text()` produced for that page (the empty
string models a page with no extractable text, i.e. a falsy `page_text`).
`pagesThenFail ps`: the reader opens and yields the pages `ps`, after which
page iteration or text extraction raises. -/
inductive PdfOutcome
  | openFail
  | pages (ps : List String)
  | pagesThenFail (ps : List String)
deriving DecidableEq, Repr

/-- One iteration of the outer loop of `get_pdf_text` (app.py lines 43-52):
starting from the accumulated `text`, process one buffer inside the
`try`/`except`.  Pages are appended in order via `text += page_text`,
guarded by `if page_text:`; when opening fails nothing is appended, and when
iteration fails after some pages the text appended so far is kept because
the `except` merely logs and continues. -/
def extract_from (text : String) : PdfOutcome → String
  | PdfOutcome.openFail => text
  | PdfOutcome.pages ps => ps.foldl (fun t p => if p = "" then t else t ++ p) text
  | PdfOutcome.pagesThenFail ps => ps.foldl (fun t p => if p = "" then t else t ++ p) text

/-- `get_pdf_text` (app.py lines 41-53): fold the per-buffer extraction over
the uploaded buffers, starting from the empty accumulator.  It never raises:
every per-buffer failure is absorbed by the `except` clause. -/
def get_pdf_text (pdf_docs : List PdfOutcome) : String :=
  pdf_docs.foldl extract_from ""

/-- The chunker parameter `chunk_size=10000` (app.py line 57). -/
def chunk_size : Nat := 10000

/-- The chunker parameter `chunk_overlap=1000` (app.py line 57). -/
def chunk_overlap : Nat := 1000

/-- Modelled from the spec: `RecursiveCharacterTextSplitter.split_text` is
library code whose internals the repository does not contain.  The spec
describes the Chunker as a fixed-size sliding window: an ordered sequence of
substrings, each at most `size` characters, consecutive windows separated by
a stride of `size - overlap` so that adjacent chunks share an overlap of up
to `overlap` characters, with no chunk for empty input. -/
def splitText (size stride : Nat) (cs : List Char) : List (List Char) :=
  (List.range ((cs.length + (stride - 1)) / stride)).map
    (fun i => (cs.drop (i * stride)).take size)

/-- `get_text_chunks` (app.py lines 55-59): split the extracted text with
chunk size 10000 and overlap 1000 (stride 9000). -/
def get_text_chunks (text : String) : List String :=
  (splitText chunk_size (chunk_size - chunk_overlap) text.toList).map
    (fun cs => String.mk cs)

/-- The fixed filesystem location of the persisted index (app.py line 37). -/
def FAISS_INDEX_PATH : String := "faiss_index"

/-- The filesystem state at `FAISS_INDEX_PATH`: `none` when no index
directory exists, `some chunks` when a persisted index built from `chunks`
exists there. -/
structure FS where
  index : Option (List String)
deriving DecidableEq, Repr

/-- Filesystem operations the handlers perform at `FAISS_INDEX_PATH`,
recorded as a trace. -/
inductive FSOp
  | existsCheck
  | rmtree
  | saveLocal (chunks : List String)
  | loadLocal
deriving DecidableEq, Repr

/-- Whether a filesystem operation mutates the index path (`rmtree` and
`save_local` do; `os.path.exists` and `load_local` are read-only). -/
def FSOp.isWrite : FSOp → Bool
  | FSOp.rmtree => true
  | FSOp.saveLocal _ => true
  | FSOp.existsCheck => false
  | FSOp.loadLocal => false

/-- Python exceptions that reach an enclosing handler. -/
inductive Exn
  | http (status : Nat) (detail : String)
  | valueError (msg : String)
  | libError (msg : String)
deriving DecidableEq, Repr

deriving instance DecidableEq for Except

/-- Python `str(e)` for the modelled exceptions; Starlette renders an
`HTTPException` as `"{status_code}: {detail}"`. -/
def Exn.message : Exn → String
  | Exn.http status detail => toString status ++ ": " ++ detail
  | Exn.valueError m => m
  | Exn.libError m => m

/-- Success or failure of the external library calls made during an upload:
the `HuggingFaceEmbeddings` constructor (app.py line 66), the embedding step
`FAISS.from_texts` (line 69) and `save_local` (line 70). -/
structure UploadOracle where
  embedInitOk : Bool
  fromTextsOk : Bool
  saveOk : Bool
deriving DecidableEq, Repr

/-- An HTTP response: the status code and either the error `detail` or the
success payload string. -/
structure Response where
  status : Nat
  body : String
deriving DecidableEq, Repr

/-- `get_vector_store` (app.py lines 61-71).  Empty chunk list: raises
`ValueError` before touching anything.  Then the embeddings constructor runs
(line 66, before any filesystem change); then any existing index is removed
(`os.path.exists` / `shutil.rmtree`, lines 67-68); then `FAISS.from_texts`
and `save_local` run (lines 69-70).  A failure after the removal leaves the
path with no index.  Returns the final filesystem state, the trace of
filesystem operations performed, and the raised exception if any. -/
def get_vector_store (text_chunks : List String) (o : UploadOracle) (fs : FS) :
    FS × List FSOp × Except Exn Unit :=
  if text_chunks = [] then
    (fs, [], Except.error (Exn.valueError "Text chunks are empty, cannot create vector store."))
  else if o.embedInitOk = false then
    (fs, [], Except.error (Exn.libError "could not initialize HuggingFaceEmbeddings"))
  else
    let trace := if fs.index.isSome then [FSOp.existsCheck, FSOp.rmtree] else [FSOp.existsCheck]
    if o.fromTextsOk = false then
      (FS.mk none, trace, Except.error (Exn.libError "FAISS.from_texts failed"))
    else if o.saveOk = false then
      (FS.mk none, trace, Except.error (Exn.libError "save_local failed"))
    else
      (FS.mk (some text_chunks), trace ++ [FSOp.saveLocal text_chunks], Except.ok ())

/-- The success payload of `/upload` (app.py lines 94-97), as status 200
with the `message` field. -/
def upload_success_response : Response :=
  Response.mk 200 "Documents processed successfully. You can now ask a question."

/-- The body of the `try` block of `upload_pdfs` (app.py lines 82-97):
extract, validate non-emptiness (raising `HTTPException(400, ...)` on empty
extraction — note this raise happens inside the `try`), chunk, and build the
vector store.  Returns the filesystem state, trace, and either the success
response or the exception that escapes the block. -/
def upload_body (files : List PdfOutcome) (o : UploadOracle) (fs : FS) :
    FS × List FSOp × Except Exn Response :=
  let raw_text := get_pdf_text files
  if raw_text = "" then
    (fs, [], Except.error (Exn.http 400 "Could not extract any text from the provided PDFs."))
  else
    let text_chunks := get_text_chunks raw_text
    match get_vector_store text_chunks o fs with
    | (fs1, t, Except.error e) => (fs1, t, Except.error e)
    | (fs1, t, Except.ok _) => (fs1, t, Except.ok upload_success_response)

/-- `upload_pdfs` (app.py lines 75-101): empty file list → 400 (raised
outside the `try`); otherwise run the pipeline, and convert ANY exception
escaping the `try` block — including the `HTTPException(400, ...)` raised at
line 87 for empty extraction, since FastAPI's `HTTPException` is a subclass
of `Exception` — into a 500 whose detail interpolates `str(e)`
(line 101). -/
def upload_pdfs (files : List PdfOutcome) (o : UploadOracle) (fs : FS) :
    FS × List FSOp × Response :=
  if files = [] then
    (fs, [], Response.mk 400 "No files were uploaded.")
  else
    match upload_body files o fs with
    | (fs1, t, Except.ok resp) => (fs1, t, resp)
    | (fs1, t, Except.error e) =>
        (fs1, t, Response.mk 500 ("An error occurred during processing: " ++ e.message))

/-- Success or failure of the external library calls made during an ask:
the `HuggingFaceEmbeddings` constructor (app.py line 122), `FAISS.load_local`
(line 123), and the retrieval chain invocation (lines 124-148) whose answer
string on success is `answer`. -/
structure AskOracle where
  embedInitOk : Bool
  loadOk : Bool
  genOk : Bool
  answer : String
deriving DecidableEq, Repr

/-- `ask_question` (app.py lines 107-155).  Validation happens before the
`try` block: an empty question → 400, and a missing index directory → 400
"No documents have been processed yet" (lines 112-115); these are raised
outside the `try`, so they are never converted to 500.  Inside the `try`:
`os.getenv("GOOGLE_API_KEY")` is consulted (line 118) — the handler is the
only place the key is read — and a falsy key (unset or empty) raises a
`ValueError` which the `except` turns into a 500 (line 155); then the
embeddings constructor, the read-only `FAISS.load_local`, and the generation
chain run.  No branch writes to the filesystem. -/
def ask_question (question : String) (env : String → Option String) (o : AskOracle) (fs : FS) :
    FS × List FSOp × Response :=
  if question = "" then
    (fs, [], Response.mk 400 "No question was provided.")
  else if fs.index.isNone then
    (fs, [FSOp.existsCheck],
      Response.mk 400 "No documents have been processed yet. Please upload files first.")
  else if (env "GOOGLE_API_KEY").getD "" = "" then
    (fs, [FSOp.existsCheck],
      Response.mk 500
        ("An internal error occurred: " ++
          Exn.message (Exn.valueError
            "GOOGLE_API_KEY not found in .env file. Please check your .env file.")))
  else if o.embedInitOk = false then
    (fs, [FSOp.existsCheck],
      Response.mk 500 "An internal error occurred: could not initialize HuggingFaceEmbeddings")
  else if o.loadOk = false then
    (fs, [FSOp.existsCheck, FSOp.loadLocal],
      Response.mk 500 "An internal error occurred: FAISS.load_local failed")
  else if o.genOk = false then
    (fs, [FSOp.existsCheck, FSOp.loadLocal],
      Response.mk 500 "An internal error occurred: retrieval chain invocation failed")
  else
    (fs, [FSOp.existsCheck, FSOp.loadLocal], Response.mk 200 o.answer)

/-- The process-wide configuration assembled at import/startup time
(app.py lines 21-37): logging, `load_dotenv()`, the FastAPI application
with its title, the wide-open CORS origins, and the index path constant.
No line of the startup code reads `GOOGLE_API_KEY`, so the result does not
depend on the environment. -/
structure AppState where
  title : String
  allowOrigins : List String
  faissIndexPath : String
deriving DecidableEq, Repr

/-- `app_startup` models executing app.py's module level (lines 21-37) in a
given process environment.  It never fails and never consults the
generative-model API key. -/
def app_startup (_env : String → Option String) : AppState :=
  AppState.mk "Chat with PDFs Backend" ["*"] FAISS_INDEX_PATH

/-- The generation temperature passed to `ChatGoogleGenerativeAI`
(app.py line 127), the Python float literal `0.3` as a rational. -/
def gen_temperature : ℚ := 3 / 10

/-- The generative model identifier (app.py line 127). -/
def gen_model_name : String := "models/gemini-2.5-flash"

/-- The refusal sentence the prompt instructs the model to emit when the
context does not contain the answer (app.py line 132). -/
def refusal_sentence : String := "The answer is not available in the provided documents."

/-- The opening instruction of the prompt, telling the model to answer from
the provided context (app.py line 130). -/
def context_instruction : String :=
  "Answer the question as detailed as possible from the provided context."

/-- `prompt_template` (app.py lines 129-142), the Python triple-quoted
string passed to `ChatPromptTemplate.from_template`. -/
def prompt_template : String :=
  "\n        Answer the question as detailed as possible from the provided context.\n        Make sure to provide all the details. If the answer is not in the provided context,\n        just say, \"The answer is not available in the provided documents.\"\n        Do not provide a speculative or incorrect answer.\n\n        Context:\n        {context}\n\n        Question:\n        {input}\n\n        Answer:\n        "

/-- The extractor as claim C4's words describe it: buffers that open
successfully contribute the concatenation of their per-page text, and any
buffer whose opening or page iteration fails is skipped — contributing
nothing at all. -/
def get_pdf_text_claim (pdf_docs : List PdfOutcome) : String :=
  String.join (pdf_docs.map (fun d =>
    match d with
    | PdfOutcome.pages ps => String.join ps
    | _ => ""))

lemma page_foldl_shift (ps : List String) (t : String) :
    ps.foldl (fun a p => if p = "" then a else a ++ p) t =
      t ++ ps.foldl (fun a p => if p = "" then a else a ++ p) "" := by
  induction ps generalizing t with
  | nil => simp
  | cons p ps ih =>
      simp only [List.foldl_cons]
      rw [ih, ih (if p = "" then "" else "" ++ p)]
      by_cases hp : p = "" <;> simp [hp, String.append_assoc]

lemma extract_from_shift (t : String) (d : PdfOutcome) :
    extract_from t d = t ++ extract_from "" d := by
  cases d with
  | openFail => simp [extract_from]
  | pages ps => simpa [extract_from] using page_foldl_shift ps t
  | pagesThenFail ps => simpa [extract_from] using page_foldl_shift ps t

lemma get_pdf_text_foldl_shift (docs : List PdfOutcome) (t : String) :
    docs.foldl extract_from t = t ++ docs.foldl extract_from "" := by
  induction docs generalizing t with
  | nil => simp
  | cons d ds ih =>
      simp only [List.foldl_cons]
      rw [ih, ih (extract_from "" d), extract_from_shift t d, String.append_assoc]

lemma join_cons (a : String) (l : List String) :
    String.join (a :: l) = a ++ String.join l := by
  have shift : ∀ (l : List String) (t : String),
      l.foldl (fun a b => a ++ b) t = t ++ l.foldl (fun a b => a ++ b) "" := by
    intro l
    induction l with
    | nil => intro t; simp
    | cons x xs ih =>
        intro t
        simp only [List.foldl_cons]
        rw [ih, ih ("" ++ x), String.empty_append, String.append_assoc]
  show (a :: l).foldl (fun a b => a ++ b) "" = a ++ l.foldl (fun a b => a ++ b) ""
  simp only [List.foldl_cons, String.empty_append]
  exact shift l a

/-- C4 (counterexample): on a single buffer that opens, yields one page of
text "a", and then fails during page iteration, `get_pdf_text` keeps the
text of the already-read page and returns "a", whereas the claim's
description — skip any buffer whose page iteration fails — yields "". -/
theorem get_pdf_text_iter_fail_counterexample :
    get_pdf_text [PdfOutcome.pagesThenFail ["a"]] = "a" ∧
    get_pdf_text_claim [PdfOutcome.pagesThenFail ["a"]] = "" ∧
    get_pdf_text [PdfOutcome.pagesThenFail ["a"]] ≠
      get_pdf_text_claim [PdfOutcome.pagesThenFail ["a"]] := by
  refine ⟨rfl, rfl, ?_⟩
  decide

/-- C4 (amended): `get_pdf_text` returns the order-preserving concatenation
of the per-buffer extracted text, where a buffer that fails to open
contributes nothing, a buffer that opens contributes its pages' text in page
order, and a buffer whose page iteration fails contributes the text of the
pages read before the failure; it is a total function (never raises). -/
theorem get_pdf_text_concat :
    ∀ docs : List PdfOutcome,
      get_pdf_text docs = String.join (docs.map (extract_from "")) ∧
      extract_from "" PdfOutcome.openFail = "" ∧
      (∀ ps, extract_from "" (PdfOutcome.pages ps) = String.join ps) ∧
      (∀ ps, extract_from "" (PdfOutcome.pagesThenFail ps) = String.join ps) := by
  have pages_join : ∀ ps : List String,
      ps.foldl (fun a p => if p = "" then a else a ++ p) "" = String.join ps := by
    intro ps
    induction ps with
    | nil => rfl
    | cons p ps ih =>
        simp only [List.foldl_cons]
        rw [page_foldl_shift, ih, join_cons]
        by_cases hp : p = "" <;> simp [hp]
  intro docs
  refine ⟨?_, rfl, fun ps => pages_join ps, fun ps => pages_join ps⟩
  induction docs with
  | nil => rfl
  | cons d ds ih =>
      show (d :: ds).foldl extract_from "" = _
      simp only [List.foldl_cons, List.map_cons]
      rw [get_pdf_text_foldl_shift, join_cons, ← ih]
      rfl

/-- C5: `get_vector_store` applied to an empty chunk sequence raises a
`ValueError` (an invalid-input error) without touching the filesystem, and
the chunker maps the empty string to the empty chunk list, which is exactly
what this check rejects. -/
theorem get_vector_store_rejects_empty_chunks (o : UploadOracle) (fs : FS) :
    get_text_chunks "" = [] ∧
    (get_vector_store (get_text_chunks "") o fs).2.2 =
      Except.error (Exn.valueError "Text chunks are empty, cannot create vector store.") ∧
    (get_vector_store (get_text_chunks "") o fs).1 = fs ∧
    (get_vector_store (get_text_chunks "") o fs).2.1 = [] := by
  have h : get_text_chunks "" = ([] : List String) := by decide
  refine ⟨h, ?_, ?_, ?_⟩ <;> rw [h] <;> simp [get_vector_store]

set_option maxRecDepth 4000 in
/-- C8: the fixed parameters match the specified values — chunk size 10000
and overlap 1000 in the chunker, generation temperature 0.3 (= 3/10), and a
prompt template that contains the exact refusal sentence and the
instruction to answer from the provided context. -/
theorem fixed_parameters_match :
    chunk_size = 10000 ∧ chunk_overlap = 1000 ∧
    gen_temperature = 3 / 10 ∧
    (∃ a b c, prompt_template =
      a ++ context_instruction ++ b ++ refusal_sentence ++ c) ∧
    refusal_sentence = "The answer is not available in the provided documents." ∧
    context_instruction =
      "Answer the question as detailed as possible from the provided context." := by
  refine ⟨rfl, rfl, rfl, ?_, rfl, rfl⟩
  exact ⟨"\n        ",
    "\n        Make sure to provide all the details. If the answer is not in the provided context,\n        just say, \"",
    "\"\n        Do not provide a speculative or incorrect answer.\n\n        Context:\n        {context}\n\n        Question:\n        {input}\n\n        Answer:\n        ",
    rfl⟩

lemma string_mk_length (cs : List Char) : (String.mk cs).length = cs.length := rfl

lemma toList_length (s : String) : s.toList.length = s.length := rfl

lemma get_text_chunks_length (text : String) :
    (get_text_chunks text).length = (text.toList.length + 8999) / 9000 := by
  simp [get_text_chunks, splitText, chunk_size, chunk_overlap]

lemma get_text_chunks_get (text : String) (i : Nat)
    (hi : i < (get_text_chunks text).length) :
    (get_text_chunks text).get ⟨i, hi⟩ =
      String.mk ((text.toList.drop (i * 9000)).take 10000) := by
  simp [get_text_chunks, splitText, chunk_size, chunk_overlap, List.get_eq_getElem]

/-- C3: for every input of length at least 10000 (the configured chunk
size), the chunker returns at least two chunks, each of length at most
10000; each chunk is the window of the text starting at position
i * 9000, so the region shared by adjacent windows — the end of chunk i
past the start of chunk i+1 — is at most 1000 characters (the configured
overlap). -/
theorem get_text_chunks_bounds (text : String) (h : 10000 ≤ text.length) :
    2 ≤ (get_text_chunks text).length ∧
    (∀ c ∈ get_text_chunks text, c.length ≤ 10000) ∧
    (∀ i, ∀ hi : i < (get_text_chunks text).length,
      (get_text_chunks text).get ⟨i, hi⟩ =
        String.mk ((text.toList.drop (i * 9000)).take 10000)) ∧
    (∀ i, ∀ hi : i + 1 < (get_text_chunks text).length,
      i * 9000 + ((get_text_chunks text).get ⟨i, Nat.lt_of_succ_lt hi⟩).length
        ≤ (i + 1) * 9000 + 1000) := by
  have hL : 10000 ≤ text.toList.length := by rw [toList_length]; exact h
  refine ⟨?_, ?_, fun i hi => get_text_chunks_get text i hi, ?_⟩
  · rw [get_text_chunks_length, Nat.le_div_iff_mul_le (by norm_num)]
    omega
  · intro c hc
    simp only [get_text_chunks, splitText, List.mem_map, List.mem_range] at hc
    obtain ⟨cs, ⟨i, _, rfl⟩, rfl⟩ := hc
    simp [string_mk_length, List.length_take, chunk_size, chunk_overlap]
  · intro i hi
    rw [get_text_chunks_get text i (Nat.lt_of_succ_lt hi), string_mk_length]
    have := List.length_take 10000 (text.toList.drop (i * 9000))
    omega

theorem get_text_chunks_bounds_witness :
    10000 ≤ (String.mk (List.replicate 10000 'a')).length ∧
    2 ≤ (get_text_chunks (String.mk (List.replicate 10000 'a'))).length :=
  ⟨by show 10000 ≤ (List.replicate 10000 'a').length
      rw [List.length_replicate],
   (get_text_chunks_bounds (String.mk (List.replicate 10000 'a'))
      (by show 10000 ≤ (List.replicate 10000 'a').length
          rw [List.length_replicate])).1⟩

/-- C1: because FastAPI's `HTTPException` subclasses `Exception`, the
400 raised for empty extraction inside the `try` of `upload_pdfs` is caught
by the handler's own `except Exception` and re-raised as a 500; so an upload
whose files yield no extractable text is answered with HTTP 500 (whose
detail wraps the stringified 400), not with the 400 the code intended. -/
theorem upload_no_text_returns_500 (files : List PdfOutcome) (o : UploadOracle) (fs : FS)
    (hne : files ≠ []) (hempty : get_pdf_text files = "") :
    (upload_pdfs files o fs).2.2 =
      Response.mk 500
        "An error occurred during processing: 400: Could not extract any text from the provided PDFs." := by
  simp only [upload_pdfs, upload_body, hempty, if_neg hne, reduceIte, Exn.message]
  rfl

theorem upload_no_text_returns_500_witness :
    [PdfOutcome.pages []] ≠ ([] : List PdfOutcome) ∧
    get_pdf_text [PdfOutcome.pages []] = "" ∧
    (upload_pdfs [PdfOutcome.pages []] (UploadOracle.mk true true true) (FS.mk none)).2.2 =
      Response.mk 500
        "An error occurred during processing: 400: Could not extract any text from the provided PDFs." :=
  ⟨by decide, rfl,
    upload_no_text_returns_500 [PdfOutcome.pages []]
      (UploadOracle.mk true true true) (FS.mk none) (by decide) rfl⟩

/-- C2: a successful `get_vector_store` call with a non-empty chunk list
leaves exactly the new chunks as the one persisted index, and its
filesystem trace deletes any pre-existing index (`rmtree`) strictly before
writing the new one (`save_local`) — a full replace, never a merge. -/
theorem get_vector_store_full_replace (chunks : List String) (o : UploadOracle) (fs : FS)
    (hne : chunks ≠ []) (hok : (get_vector_store chunks o fs).2.2 = Except.ok ()) :
    (get_vector_store chunks o fs).1 = FS.mk (some chunks) ∧
    (get_vector_store chunks o fs).2.1 =
      (if fs.index.isSome then [FSOp.existsCheck, FSOp.rmtree, FSOp.saveLocal chunks]
       else [FSOp.existsCheck, FSOp.saveLocal chunks]) := by
  obtain ⟨e1, f1, s1⟩ := o
  cases hfs : fs.index.isSome <;> cases e1 <;> cases f1 <;> cases s1 <;>
    simp [get_vector_store, if_neg hne, hfs] at hok ⊢

theorem get_vector_store_full_replace_witness :
    (get_vector_store ["new"] (UploadOracle.mk true true true) (FS.mk (some ["old"]))).1 =
      FS.mk (some ["new"]) ∧
    (get_vector_store ["new"] (UploadOracle.mk true true true) (FS.mk (some ["old"]))).2.1 =
      [FSOp.existsCheck, FSOp.rmtree, FSOp.saveLocal ["new"]] := by
  have h := get_vector_store_full_replace ["new"] (UploadOracle.mk true true true)
    (FS.mk (some ["old"])) (by decide) rfl
  simpa using h

/-- C9: when an index already exists and `get_vector_store` is called with
non-empty chunks, a failure in the embedding step (`FAISS.from_texts`) or in
`save_local` happens after the old index was already deleted: the call
raises, afterwards no index exists at the path, and a subsequent `/ask`
with a non-empty question is answered 400 "No documents have been processed
yet". -/
theorem index_replace_not_atomic (chunks : List String) (o : UploadOracle) (fs : FS)
    (hne : chunks ≠ []) (_hprior : fs.index.isSome = true)
    (hinit : o.embedInitOk = true)
    (hfail : o.fromTextsOk = false ∨ o.saveOk = false) :
    (∃ e, (get_vector_store chunks o fs).2.2 = Except.error e) ∧
    (get_vector_store chunks o fs).1.index = none ∧
    (∀ (q : String) (env : String → Option String) (oa : AskOracle), q ≠ "" →
      (ask_question q env oa (get_vector_store chunks o fs).1).2.2 =
        Response.mk 400 "No documents have been processed yet. Please upload files first.") := by
  have hfs : (get_vector_store chunks o fs).1 = FS.mk none ∧
      ∃ e, (get_vector_store chunks o fs).2.2 = Except.error e := by
    by_cases h2 : o.fromTextsOk = false
    · simp [get_vector_store, if_neg hne, hinit, h2]
    · have hs : o.saveOk = false := by tauto
      simp [get_vector_store, if_neg hne, hinit, h2, hs]
  refine ⟨hfs.2, by rw [hfs.1], ?_⟩
  intro q env oa hq
  rw [hfs.1]
  simp [ask_question, hq]

theorem index_replace_not_atomic_witness :
    (get_vector_store ["new"] (UploadOracle.mk true false true)
        (FS.mk (some ["old"]))).1.index = none ∧
    (ask_question "q" (fun _ => none) (AskOracle.mk true true true "a")
        (get_vector_store ["new"] (UploadOracle.mk true false true)
          (FS.mk (some ["old"]))).1).2.2 =
      Response.mk 400 "No documents have been processed yet. Please upload files first." := by
  have h := index_replace_not_atomic ["new"] (UploadOracle.mk true false true)
    (FS.mk (some ["old"])) (by decide) rfl rfl (Or.inl rfl)
  exact ⟨h.2.1, h.2.2 "q" (fun _ => none) (AskOracle.mk true true true "a") (by decide)⟩

/-- C6: the `/ask` handler answers 400 "No question was provided." for an
empty question, and 400 "No documents have been processed yet. Please
upload files first." when no index exists at the path; both checks run
before the handler's `try` block, so they are never converted to 500. -/
theorem ask_validation_400 (question : String) (env : String → Option String)
    (o : AskOracle) (fs : FS) :
    (question = "" →
      (ask_question question env o fs).2.2 = Response.mk 400 "No question was provided.") ∧
    (question ≠ "" → fs.index = none →
      (ask_question question env o fs).2.2 =
        Response.mk 400 "No documents have been processed yet. Please upload files first.") := by
  constructor
  · intro hq; simp [ask_question, hq]
  · intro hq hidx; simp [ask_question, hq, hidx]

theorem ask_validation_400_witness :
    (ask_question "" (fun _ => none) (AskOracle.mk true true true "a") (FS.mk none)).2.2 =
      Response.mk 400 "No question was provided." ∧
    (ask_question "q" (fun _ => none) (AskOracle.mk true true true "a") (FS.mk none)).2.2 =
      Response.mk 400 "No documents have been processed yet. Please upload files first." :=
  ⟨(ask_validation_400 "" (fun _ => none) (AskOracle.mk true true true "a") (FS.mk none)).1 rfl,
   (ask_validation_400 "q" (fun _ => none) (AskOracle.mk true true true "a") (FS.mk none)).2
      (by decide) rfl⟩

/-- C7: server startup is independent of the environment (the key is never
read at startup), and when the `/ask` handler reads `GOOGLE_API_KEY` at
ask-time and finds it unset (or empty, which Python treats as falsy too),
the missing-credential `ValueError` raised there is surfaced as an HTTP 500
response. -/
theorem api_key_read_at_ask_time (env : String → Option String) (question : String)
    (o : AskOracle) (fs : FS)
    (hq : question ≠ "") (hidx : fs.index.isSome = true)
    (hkey : (env "GOOGLE_API_KEY").getD "" = "") :
    app_startup env = app_startup (fun _ => none) ∧
    (ask_question question env o fs).2.2 =
      Response.mk 500
        ("An internal error occurred: " ++
          "GOOGLE_API_KEY not found in .env file. Please check your .env file.") := by
  have hnone : fs.index.isNone = false := by
    cases hfs : fs.index <;> simp_all
  refine ⟨rfl, ?_⟩
  simp [ask_question, hq, hnone, hkey, Exn.message]

theorem api_key_read_at_ask_time_witness :
    app_startup (fun _ => none) = app_startup (fun _ => none) ∧
    (ask_question "q" (fun _ => none) (AskOracle.mk true true true "ans")
        (FS.mk (some ["c"]))).2.2 =
      Response.mk 500
        ("An internal error occurred: " ++
          "GOOGLE_API_KEY not found in .env file. Please check your .env file.") :=
  api_key_read_at_ask_time (fun _ => none) "q" (AskOracle.mk true true true "ans")
    (FS.mk (some ["c"])) (by decide) rfl rfl

/-- C10: every execution of the `/ask` handler leaves the filesystem state
at the index path unchanged, and its trace of filesystem operations
contains only read-only operations (existence check and `load_local`),
never a write, delete, or replace. -/
theorem ask_preserves_index (question : String) (env : String → Option String)
    (o : AskOracle) (fs : FS) :
    (ask_question question env o fs).1 = fs ∧
    (∀ op ∈ (ask_question question env o fs).2.1, op.isWrite = false) := by
  unfold ask_question
  split_ifs <;> exact ⟨rfl, by simp [FSOp.isWrite]⟩
